import Mathlib

/-
  Shallow embedding of the reddit-scout repository
  (scripts/scout.js, scripts/notify.js, scripts/scheduler.js).

  Text is modelled as `List Char` (JS strings over the ASCII inputs the
  lexicons use); JS numbers are modelled as `Int`/`Nat` where they hold
  integers and as `Rat` where the source divides, with the two-decimal
  `Math.round(x * 100) / 100` modelled exactly (JS Math.round is
  floor(x + 1/2)).
-/

namespace RedditScout

/-- JS `\w` character class: `[A-Za-z0-9_]`. -/
def isWordChar (c : Char) : Bool := c.isAlpha || c.isDigit || c == '_'

/-- `toLowerCase()` (the inputs involved are ASCII). -/
def lowerL (s : List Char) : List Char := s.map Char.toLower

/-- Does `w` start the list `s`? (list version of startsWith). -/
def startsWithL : List Char → List Char → Bool
  | [], _ => true
  | _ :: _, [] => false
  | a :: as, b :: bs => a == b && startsWithL as bs

/-- JS `String.prototype.includes`: `w` occurs as a contiguous substring. -/
def containsSub (w : List Char) : List Char → Bool
  | [] => w.isEmpty
  | c :: rest => startsWithL w (c :: rest) || containsSub w rest

/--
Count of matches of the regex `\b` ++ w with the `g` flag on `s`
(scout.js line 94: `new RegExp('\\b' + word, 'gi')` run on the lowercased
text): a match starts wherever the previous character is not a word
character and `w` is a prefix of the remaining text; after a match the scan
resumes past the matched characters, as the `g` flag does.
`prevW` records whether the previous character was a word character and
`skip` how many characters of a previous match are still being consumed.
-/
def countScanAux (w : List Char) : List Char → Bool → Nat → Nat
  | [], _, _ => 0
  | c :: rest, prevW, skip =>
    match skip with
    | Nat.succ k => countScanAux w rest (isWordChar c) k
    | 0 =>
      if prevW = false ∧ startsWithL w (c :: rest) = true then
        1 + countScanAux w rest (isWordChar c) (w.length - 1)
      else
        countScanAux w rest (isWordChar c) 0

def countScan (w s : List Char) : Nat := countScanAux w s false 0

/--
JS `text.split(/\s+/)`: split on maximal whitespace runs; a leading or
trailing run contributes an empty token, and `''.split(/\s+/) = ['']`.
The `Bool` is false while a token is being accumulated in `acc` (reversed)
and true while a whitespace run is being skipped.
-/
def splitWsGo : Bool → List Char → List Char → List (List Char)
  | false, acc, [] => [acc.reverse]
  | false, acc, c :: rest =>
    if c.isWhitespace then acc.reverse :: splitWsGo true [] rest
    else splitWsGo false (c :: acc) rest
  | true, _, [] => [[]]
  | true, _, c :: rest =>
    if c.isWhitespace then splitWsGo true [] rest
    else splitWsGo false [c] rest

def splitWs (s : List Char) : List (List Char) := splitWsGo false [] s

/-- The apostrophe character, used by the contracted negation words and two
pain-signal phrases. -/
def apos : Char := Char.ofNat 39

-- ============ the static lexicons of scout.js ============

def POSITIVE_WORDS : List (List Char) :=
  [ "love".toList, "amazing".toList, "great".toList, "awesome".toList,
    "excellent".toList, "fantastic".toList, "perfect".toList, "best".toList,
    "wonderful".toList, "incredible".toList, "brilliant".toList,
    "outstanding".toList, "happy".toList, "satisfied".toList,
    "impressed".toList, "recommend".toList, "thank".toList, "thanks".toList,
    "helpful".toList, "useful".toList, "solved".toList, "works great".toList,
    "game changer".toList, "life saver".toList ]

def NEGATIVE_WORDS : List (List Char) :=
  [ "hate".toList, "terrible".toList, "awful".toList, "horrible".toList,
    "worst".toList, "bad".toList, "poor".toList, "disappointed".toList,
    "frustrat".toList, "annoyed".toList, "angry".toList, "useless".toList,
    "broken".toList, "bug".toList, "issue".toList, "problem".toList,
    "fail".toList, "crash".toList, "slow".toList, "expensive".toList,
    "scam".toList, "waste".toList, "regret".toList, "avoid".toList,
    "sucks".toList, "ridiculous".toList ]

def wDont : List Char := "don".toList ++ apos :: "t".toList
def wDoesnt : List Char := "doesn".toList ++ apos :: "t".toList
def wDidnt : List Char := "didn".toList ++ apos :: "t".toList
def wWont : List Char := "won".toList ++ apos :: "t".toList
def wCant : List Char := "can".toList ++ apos :: "t".toList

def NEGATION_WORDS : List (List Char) :=
  [ "not".toList, wDont, wDoesnt, wDidnt, wWont, wCant,
    "never".toList, "no".toList ]

-- ============ analyzeSentiment (scout.js lines 85-141) ============

inductive Label where
  | positive
  | negative
  | neutral
deriving DecidableEq

@[ext]
structure Sentiment where
  label : Label
  compound : ℚ
  positive : ℤ
  negative : ℤ
deriving DecidableEq

/-- Hits of all positive lexicon words in the lowercased text
(the first `for` loop of analyzeSentiment). -/
def posHits1 (lowerText : List Char) : ℕ :=
  (POSITIVE_WORDS.map (fun w => countScan w lowerText)).sum

/-- Hits of all negative lexicon words in the lowercased text
(the second `for` loop of analyzeSentiment). -/
def negHits1 (lowerText : List Char) : ℕ :=
  (NEGATIVE_WORDS.map (fun w => countScan w lowerText)).sum

/--
The negation pass of analyzeSentiment (lines 107-120): for each adjacent
token pair whose first token is a negation word, when the following token
contains (as a substring) a positive stem the pair contributes
(-1, +1) to (positiveScore, negativeScore), and when it contains a
negative stem it contributes (+1, -1); both can fire on the same pair.
-/
def negFlipDelta (a b : List Char) : ℤ × ℤ :=
  if a ∈ NEGATION_WORDS then
    ((if POSITIVE_WORDS.any (fun pw => containsSub pw b) then (-1 : ℤ) else 0) +
     (if NEGATIVE_WORDS.any (fun nw => containsSub nw b) then (1 : ℤ) else 0),
     (if POSITIVE_WORDS.any (fun pw => containsSub pw b) then (1 : ℤ) else 0) +
     (if NEGATIVE_WORDS.any (fun nw => containsSub nw b) then (-1 : ℤ) else 0))
  else (0, 0)

/-- Final (positiveScore, negativeScore) of analyzeSentiment. -/
def sentScores (text : List Char) : ℤ × ℤ :=
  let lowerText := lowerL text
  let words := splitWs lowerText
  let deltas := (words.zip words.tail).map (fun ab => negFlipDelta ab.1 ab.2)
  ((posHits1 lowerText : ℤ) + (deltas.map Prod.fst).sum,
   (negHits1 lowerText : ℤ) + (deltas.map Prod.snd).sum)

/-- The compound value before the two-decimal rounding (lines 123-127):
`(positiveScore - negativeScore) / total` when `total > 0`, else 0. -/
def rawCompound (text : List Char) : ℚ :=
  let p := (sentScores text).1
  let n := (sentScores text).2
  if 0 < p + n then ((p - n : ℤ) : ℚ) / ((p + n : ℤ) : ℚ) else 0

/-- JS `Math.round`: floor(x + 1/2). -/
def jsRound (x : ℚ) : ℤ := Int.floor (x + 1 / 2)

/-- scout.js analyzeSentiment: label from the unrounded compound
(positive iff `compound >= 0.2`, negative iff `compound <= -0.2`), and the
returned compound is `Math.round(compound * 100) / 100`. -/
def analyzeSentiment (text : List Char) : Sentiment :=
  let p := (sentScores text).1
  let n := (sentScores text).2
  let c := rawCompound text
  { label :=
      if (1 : ℚ) / 5 ≤ c then Label.positive
      else if c ≤ -((1 : ℚ) / 5) then Label.negative
      else Label.neutral
  , compound := ((jsRound (c * 100) : ℤ) : ℚ) / 100
  , positive := p
  , negative := n }

-- ============ pain signals and detectPainPoints (scout.js 13-58, 176-205) ============

def sCantFigureOut : List Char := "can".toList ++ apos :: "t figure out".toList
def sWhyCant2 : List Char := "why can".toList ++ apos :: "t".toList

def PAIN_SIGNALS : List (String × List (List Char)) :=
  [ ("helpSeeking",
      [ "looking for".toList, "need help".toList, "anyone know".toList,
        "can someone".toList, "how do i".toList, "how can i".toList,
        "is there a".toList, "does anyone".toList, "please help".toList,
        "stuck on".toList, "cant figure out".toList, sCantFigureOut,
        "any advice".toList, "suggestions for".toList, "tips for".toList,
        "help me".toList ])
  , ("frustration",
      [ "frustrated".toList, "hate when".toList, "wish there was".toList,
        "struggling with".toList, "annoyed by".toList, "sick of".toList,
        "tired of".toList, "fed up with".toList, "drives me crazy".toList,
        "pain point".toList, "nightmare".toList, "worst part".toList ])
  , ("alternatives",
      [ "recommend".toList, "alternative to".toList, "better than".toList,
        "instead of".toList, "switching from".toList, "moved away from".toList,
        "replacement for".toList, "similar to".toList, "like X but".toList,
        "comparable to".toList, "competitor to".toList ])
  , ("hiring",
      [ "hiring".toList, "for hire".toList, "job".toList,
        "looking to hire".toList, "need a developer".toList,
        "need a designer".toList, "looking for freelancer".toList,
        "contract work".toList, "remote position".toList,
        "open position".toList ])
  , ("pricing",
      [ "too expensive".toList, "overpriced".toList, "price increase".toList,
        "pricing is".toList, "cost too much".toList,
        "cheaper alternative".toList, "free alternative".toList,
        "not worth the price".toList, "budget friendly".toList,
        "affordable option".toList, "subscription fatigue".toList,
        "price hike".toList, "raised prices".toList ])
  , ("featureRequests",
      [ "wish it had".toList, "feature request".toList,
        "would be nice if".toList, "missing feature".toList,
        "needs to add".toList, "should have".toList, "hope they add".toList,
        "why cant".toList, sWhyCant2, "feature suggestion".toList,
        "roadmap".toList, "planned feature".toList, "coming soon".toList ])
  , ("comparison",
      [ "vs".toList, "versus".toList, "compared to".toList,
        "comparison".toList, "which is better".toList, "should i use".toList,
        "should i choose".toList, "or should i".toList,
        "deciding between".toList, "pros and cons".toList,
        "which one".toList, "differences between".toList ]) ]

/-- `Object.values(PAIN_SIGNALS).flat()` (scout.js line 58). -/
def ALL_PAIN_SIGNALS : List (List Char) := (PAIN_SIGNALS.map Prod.snd).flatten

/-- Normalized post shape produced by `extractPosts` (scout.js 157-174);
`createdUtc` holds the source `created_utc` seconds. -/
structure Post where
  id : List Char
  title : List Char
  selftext : List Char
  score : ℤ
  numComments : ℕ
  author : List Char
  createdUtc : ℤ
deriving DecidableEq

/-- The `` `${p.title} ${p.selftext}` `` concatenation used throughout. -/
def postText (p : Post) : List Char := p.title ++ ' ' :: p.selftext

structure PainHit where
  post : Post
  signals : List (List Char)
  categories : List (String × List (List Char))
  sentiment : Option Sentiment
deriving DecidableEq

/-- scout.js `detectPainPoints(posts, includeSentiment)`: keep posts whose
lowercased title+body contains some pain signal as a substring; enrich each
with all matched signals, the per-category matched subsets (only nonempty
categories appear, in catalog order), and optionally sentiment. -/
def detectPainPoints (posts : List Post) (includeSentiment : Bool) : List PainHit :=
  (posts.filter
    (fun p => ALL_PAIN_SIGNALS.any (fun s => containsSub s (lowerL (postText p))))).map
    (fun p =>
      let text := postText p
      let lowerText := lowerL text
      { post := p
      , signals := ALL_PAIN_SIGNALS.filter (fun s => containsSub s lowerText)
      , categories :=
          PAIN_SIGNALS.filterMap (fun cs =>
            let matched := cs.2.filter (fun s => containsSub s lowerText)
            if matched.isEmpty then none else some (cs.1, matched))
      , sentiment := if includeSentiment then some (analyzeSentiment text) else none })

-- ============ notify.js analyzeSentiment (lines 34-59) ============

structure NSentiment where
  label : Label
  compound : ℚ
deriving DecidableEq

/-- notify.js scorer hit counts: each lexicon word counts at most once,
via a plain substring test (`lowerText.includes(word)`), and there is no
negation pass. notify.js carries its own copies of the word lists,
textually identical to those of scout.js. -/
def notifyScores (text : List Char) : ℤ × ℤ :=
  let lowerText := lowerL text
  (((POSITIVE_WORDS.filter (fun w => containsSub w lowerText)).length : ℤ),
   ((NEGATIVE_WORDS.filter (fun w => containsSub w lowerText)).length : ℤ))

def notifyRawCompound (text : List Char) : ℚ :=
  let p := (notifyScores text).1
  let n := (notifyScores text).2
  if 0 < p + n then ((p - n : ℤ) : ℚ) / ((p + n : ℤ) : ℚ) else 0

/-- notify.js `analyzeSentiment` (lines 34-59). -/
def notifyAnalyzeSentiment (text : List Char) : NSentiment :=
  let c := notifyRawCompound text
  { label :=
      if (1 : ℚ) / 5 ≤ c then Label.positive
      else if c ≤ -((1 : ℚ) / 5) then Label.negative
      else Label.neutral
  , compound := ((jsRound (c * 100) : ℤ) : ℚ) / 100 }

-- ============ the dedup store (notify.js 96, 131, 145) ============

/-- `new Set(list)`: duplicates dropped, first occurrence kept, order
otherwise preserved. -/
def dedupFirst {α : Type} [DecidableEq α] : List α → List α
  | [] => []
  | x :: xs => x :: (dedupFirst xs).filter (fun y => decide (y ≠ x))

/-- `seen.add(k)` on a JS Set: appended if absent, untouched (no
reordering) if already present. -/
def markSeen {α : Type} [DecidableEq α] (s : List α) (k : α) : List α :=
  if k ∈ s then s else s ++ [k]

/-- `seen.has(k)`. -/
def hasSeen {α : Type} [DecidableEq α] (s : List α) (k : α) : Bool :=
  decide (k ∈ s)

/-- `[...seen].slice(-1000)` (notify.js 145, 197): the persisted form keeps
the most recently added 1000 keys. -/
def flushSeen {α : Type} (s : List α) : List α := s.drop (s.length - 1000)

-- ============ raw reddit posts and keyword alerts ============

/-- The fields of a raw reddit API child `post.data` that the notify and
scheduler check cycles read. -/
structure RPost where
  id : List Char
  title : List Char
  selftext : List Char
  author : List Char
  permalink : List Char
  createdUtc : ℤ
  score : ℤ
  numComments : ℤ
deriving DecidableEq

/-- A keyword alert as created by scheduler.js `addKeywordAlert`. -/
structure Alert where
  id : String
  keywords : List (List Char)
  subreddits : List String
  createdAt : ℤ
  enabled : Bool
  notifyVia : String
  lastChecked : Option ℤ
  matchCount : ℕ
deriving DecidableEq

/-- `` `https://reddit.com${p.permalink}` ``. -/
def redditUrlOf (permalink : List Char) : List Char :=
  "https://reddit.com".toList ++ permalink

/-- The keyword filter both check cycles use:
`alert.keywords.filter(kw => text.includes(kw.toLowerCase()))` over the
lowercased `` `${p.title} ${p.selftext || ''}` ``. -/
def alertKeywordMatches (kws : List (List Char)) (p : RPost) : List (List Char) :=
  let lowerText := lowerL (p.title ++ ' ' :: p.selftext)
  kws.filter (fun kw => containsSub (lowerL kw) lowerText)

-- ============ notify.js checkAlerts (lines 94-148) ============

structure NMatch where
  subreddit : String
  keywords : List (List Char)
  title : List Char
  url : List Char
  author : List Char
  score : ℤ
  sentiment : NSentiment
deriving DecidableEq

def notifyMatchOf (sub : String) (kws : List (List Char)) (p : RPost) : NMatch :=
  { subreddit := sub
  , keywords := kws
  , title := p.title.take 100
  , url := redditUrlOf p.permalink
  , author := p.author
  , score := p.score
  , sentiment := notifyAnalyzeSentiment (p.title ++ ' ' :: p.selftext) }

/-- Inner post loop of notify.js checkAlerts: skip posts already in the
seen set; for the rest compute keyword matches and, when nonempty, push a
match record and insert the post id into the seen set. -/
def notifyPosts (kws : List (List Char)) (sub : String) :
    List RPost → List NMatch × List (List Char) → List NMatch × List (List Char)
  | [], st => st
  | p :: ps, st =>
    if hasSeen st.2 p.id then notifyPosts kws sub ps st
    else
      let matched := alertKeywordMatches kws p
      if matched.isEmpty then notifyPosts kws sub ps st
      else notifyPosts kws sub ps (st.1 ++ [notifyMatchOf sub matched p], markSeen st.2 p.id)

def notifySubs (a : Alert) (fetch : String → List RPost) :
    List String → List NMatch × List (List Char) → List NMatch × List (List Char)
  | [], st => st
  | sub :: subs, st => notifySubs a fetch subs (notifyPosts a.keywords sub (fetch sub) st)

def notifyAlertsRun (fetch : String → List RPost) :
    List Alert → List NMatch × List (List Char) → List NMatch × List (List Char)
  | [], st => st
  | a :: as, st => notifyAlertsRun fetch as (notifySubs a fetch a.subreddits st)

/-- notify.js `checkAlerts()`, with the fetches abstracted into `fetch`:
enabled alerts only, seen set loaded through `new Set`, matches and final
in-memory seen set returned.  The file then persisted is
`flushSeen` of the second component. -/
def notifyCheckAlerts (alerts : List Alert) (seenFile : List (List Char))
    (fetch : String → List RPost) : List NMatch × List (List Char) :=
  notifyAlertsRun fetch (alerts.filter (fun a => a.enabled)) ([], dedupFirst seenFile)

-- ============ scheduler.js checkAlerts (lines 160-234) ============

structure SMatchPost where
  id : List Char
  title : List Char
  url : List Char
  author : List Char
  created : ℤ
  score : ℤ
deriving DecidableEq

structure SMatch where
  alertId : String
  keywords : List (List Char)
  subreddit : String
  post : SMatchPost
deriving DecidableEq

/-- One post of scheduler.js checkAlerts: a match record is pushed whenever
the keyword filter is nonempty.  The `matchKey` computed on line 194 is
never used: no seen set is consulted or updated. -/
def schedMatchPost (a : Alert) (sub : String) (p : RPost) : Option SMatch :=
  let matched := alertKeywordMatches a.keywords p
  if matched.isEmpty then none
  else some
    { alertId := a.id
    , keywords := matched
    , subreddit := sub
    , post :=
      { id := p.id, title := p.title, url := redditUrlOf p.permalink
      , author := p.author, created := p.createdUtc, score := p.score } }

def schedMatchesFor (a : Alert) (fetch : String → List RPost) : List SMatch :=
  a.subreddits.flatMap (fun sub => (fetch sub).filterMap (schedMatchPost a sub))

/-- `findIndex` followed by an in-place update of the first element
satisfying `pred`; returns the updated element (JS returns `null` when the
index is -1) and the updated list. -/
def updateFirst {α : Type} (pred : α → Bool) (f : α → α) : List α → Option α × List α
  | [] => (none, [])
  | x :: xs =>
    if pred x then (some (f x), f x :: xs)
    else
      let r := updateFirst pred f xs
      (r.1, x :: r.2)

/-- The per-alert loop of scheduler.js checkAlerts: append this alert's
matches, then stamp `lastChecked = now` and add
`matches.filter(m => m.alertId === alert.id).length` (counted over ALL
matches accumulated so far) to `matchCount` on the first stored alert with
this id. -/
def schedRun (fetch : String → List RPost) (now : ℤ) :
    List Alert → List Alert × List SMatch → List Alert × List SMatch
  | [], st => st
  | a :: todo, st =>
    let ms := st.2 ++ schedMatchesFor a fetch
    let cnt := (ms.filter (fun m => m.alertId == a.id)).length
    let alerts := (updateFirst (fun x => x.id == a.id)
      (fun x => { x with lastChecked := some now, matchCount := x.matchCount + cnt })
      st.1).2
    schedRun fetch now todo (alerts, ms)

/-- scheduler.js `checkAlerts()`: iterate the enabled alerts over the full
stored alert list. -/
def schedCheckAlerts (alerts : List Alert) (fetch : String → List RPost)
    (now : ℤ) : List Alert × List SMatch :=
  schedRun fetch now (alerts.filter (fun a => a.enabled)) (alerts, [])

-- ============ scheduler.js scheduled posts (lines 40-109, 139-149) ============

inductive PStatus where
  | pending
  | posted
  | failed
  | cancelled
deriving DecidableEq

structure SchedPost where
  id : String
  subreddit : String
  title : String
  content : String
  scheduledTime : ℤ
  createdAt : ℤ
  status : PStatus
  flair : Option String
  nsfw : Bool
  spoiler : Bool
  cancelledAt : Option ℤ := none
  postedAt : Option ℤ := none
  redditUrl : Option String := none
deriving DecidableEq

/-- scheduler.js `addScheduledPost`: build a pending post (the generated id
and clock are parameters here) and append it. -/
def addScheduledPost (posts : List SchedPost) (subreddit title content : String)
    (scheduledTime : ℤ) (newId : String) (now : ℤ) (flair : Option String)
    (nsfw spoiler : Bool) : SchedPost × List SchedPost :=
  let post : SchedPost :=
    { id := newId, subreddit := subreddit, title := title, content := content
    , scheduledTime := scheduledTime, createdAt := now, status := PStatus.pending
    , flair := flair, nsfw := nsfw, spoiler := spoiler }
  (post, posts ++ [post])

/-- scheduler.js `cancelPost`: no guard on the current status — the first
post with this id is set to cancelled unconditionally. -/
def cancelPost (posts : List SchedPost) (id : String) (now : ℤ) :
    Option SchedPost × List SchedPost :=
  updateFirst (fun p => p.id == id)
    (fun p => { p with status := PStatus.cancelled, cancelledAt := some now }) posts

/-- scheduler.js `markPosted`: again no guard on the current status; on
success the updated post is also appended to the history file. -/
def markPosted (posts history : List SchedPost) (id : String)
    (redditUrl : Option String) (now : ℤ) :
    Option SchedPost × List SchedPost × List SchedPost :=
  let r := updateFirst (fun p => p.id == id)
    (fun p =>
      { p with
        status := PStatus.posted
        postedAt := some now
        redditUrl := (match redditUrl with
          | some u => some u
          | none => p.redditUrl) }) posts
  match r.1 with
  | none => (none, posts, history)
  | some p => (some p, r.2, history ++ [p])

/-- scheduler.js `getDuePosts`: pending posts whose scheduled time has
passed. -/
def getDuePosts (posts : List SchedPost) (now : ℤ) : List SchedPost :=
  posts.filter (fun p => p.status == PStatus.pending && decide (p.scheduledTime ≤ now))

/-- scheduler.js `toggleAlert`. -/
def toggleAlert (alerts : List Alert) (id : String) (enabled : Bool) :
    Option Alert × List Alert :=
  updateFirst (fun a => a.id == id) (fun a => { a with enabled := enabled }) alerts

-- ============ digest builders ============

/-- The in-window filter `p.createdUtc * 1000 >= cutoff` shared by both
digest builders (`cutoff = Date.now() - hours*3600*1000`). -/
def inWindow (cutoff : ℤ) (createdUtc : ℤ) : Bool := decide (cutoff ≤ createdUtc * 1000)

/-- scout.js `generateDailyDigest`: the pain points accumulated across
subreddits, each subreddit's fetch filtered to the window and passed
through `detectPainPoints` (sentiment included). -/
def scoutDigestPainPoints (fetch : String → List Post) (subs : List String)
    (cutoff : ℤ) : List PainHit :=
  (subs.map (fun sub =>
    detectPainPoints ((fetch sub).filter (fun p => inWindow cutoff p.createdUtc)) true)).flatten

def painLabelCount (hits : List PainHit) (l : Label) : ℕ :=
  (hits.filter (fun h => (Option.map Sentiment.label h.sentiment) == some l)).length

/-- scout.js `generateDailyDigest` `sentimentOverview` (lines 493-498):
positive/negative/neutral counts over `allPainPoints`. -/
def scoutSentimentOverview (fetch : String → List Post) (subs : List String)
    (cutoff : ℤ) : ℕ × ℕ × ℕ :=
  let pains := scoutDigestPainPoints fetch subs cutoff
  (painLabelCount pains Label.positive,
   painLabelCount pains Label.negative,
   painLabelCount pains Label.neutral)

structure NDigestPost where
  subreddit : String
  title : List Char
  url : List Char
  author : List Char
  score : ℤ
  numComments : ℤ
  sentiment : NSentiment
deriving DecidableEq

/-- notify.js `generateDigest` `allPosts` (lines 249-272): every in-window
post of every subreddit, annotated with notify-style sentiment; no pain
filtering. -/
def notifyDigestPosts (fetch : String → List RPost) (subs : List String)
    (cutoff : ℤ) : List NDigestPost :=
  (subs.map (fun sub =>
    ((fetch sub).filter (fun p => inWindow cutoff p.createdUtc)).map (fun p =>
      { subreddit := sub, title := p.title, url := redditUrlOf p.permalink
      , author := p.author, score := p.score, numComments := p.numComments
      , sentiment := notifyAnalyzeSentiment (p.title ++ ' ' :: p.selftext)
      : NDigestPost }))).flatten

/-- notify.js `generateDigest` sentiment stats (lines 275-278): label counts
over ALL in-window posts. -/
def notifyDigestSentiment (fetch : String → List RPost) (subs : List String)
    (cutoff : ℤ) : ℕ × ℕ × ℕ :=
  let posts := notifyDigestPosts fetch subs cutoff
  ((posts.filter (fun p => p.sentiment.label == Label.positive)).length,
   (posts.filter (fun p => p.sentiment.label == Label.negative)).length,
   (posts.filter (fun p => p.sentiment.label == Label.neutral)).length)

-- ============ spec-side reference definition for claim C6 ============

/-- Whether, after dropping a prefix of the length of `w`, the text goes on
with a word character (used to test for a word boundary after a match). -/
def wordCharAfter (w s : List Char) : Bool :=
  match List.drop w.length s with
  | [] => false
  | d :: _ => isWordChar d

/-- Following the spec's words only (not the source): the number of
occurrences of `w` in `s` as whole-word-boundary matches, i.e. with a word
boundary on both sides of the occurrence.  This is the reference the
source's `countScan` is compared against in claim C6. -/
def specWholeWordCountAux (w : List Char) : List Char → Bool → Nat
  | [], _ => 0
  | c :: rest, prevW =>
    (if prevW = false ∧ startsWithL w (c :: rest) = true ∧
        wordCharAfter w (c :: rest) = false then 1 else 0) +
      specWholeWordCountAux w rest (isWordChar c)

def specWholeWordCount (w s : List Char) : Nat := specWholeWordCountAux w s false

-- ============ concrete inputs used by the claim theorems ============

/-- `k` repetitions of the positive lexicon word `best`, space separated
(with a trailing space). -/
def repBest : ℕ → List Char
  | 0 => []
  | k + 1 => 'b' :: 'e' :: 's' :: 't' :: ' ' :: repBest k

/-- 49 repetitions of the positive word `best` followed by 33 repetitions
of the negative word `bad`: 49 positive and 33 negative hits, so the
pre-rounding compound is 16/82 = 8/41 < 0.2 while the rounded compound is
exactly 0.2. -/
def c4text : List Char := ("best best best best best best best best best " ++
  "best best best best best best best best best best best best best best " ++
  "best best best best best best best best best best best best best best " ++
  "best best best best best best best best best best best best " ++
  "bad bad bad bad bad bad bad bad bad bad bad bad bad bad bad bad bad " ++
  "bad bad bad bad bad bad bad bad bad bad bad bad bad bad bad bad").toList

def c1alert : Alert :=
  { id := "a1", keywords := ["help".toList], subreddits := ["s"]
  , createdAt := 0, enabled := true, notifyVia := "console"
  , lastChecked := none, matchCount := 0 }

def c1post : RPost :=
  { id := "p1".toList, title := "need help".toList, selftext := []
  , author := "u".toList, permalink := "/x".toList, createdUtc := 0
  , score := 0, numComments := 0 }

def c1fetch : String → List RPost := fun _ => [c1post]

def c3posted : SchedPost :=
  { id := "p1", subreddit := "s", title := "t", content := "c"
  , scheduledTime := 0, createdAt := 0, status := PStatus.posted
  , flair := none, nsfw := false, spoiler := false }

def c3pending : SchedPost :=
  { id := "p2", subreddit := "s", title := "t", content := "c"
  , scheduledTime := 5, createdAt := 0, status := PStatus.pending
  , flair := none, nsfw := false, spoiler := false }

def c8noSignalPost : Post :=
  { id := "9".toList, title := "zzz".toList, selftext := []
  , score := 0, numComments := 0, author := [], createdUtc := 0 }

def c9post : Post :=
  { id := "1".toList, title := "frustrated with my crm".toList
  , selftext := [], score := 3, numComments := 0, author := "u".toList
  , createdUtc := 1 }

def c9fetchP : String → List Post := fun _ => [c9post]

def c9rpost : RPost :=
  { id := "1".toList, title := "love stuff".toList, selftext := []
  , author := "u".toList, permalink := "/x".toList, createdUtc := 1
  , score := 0, numComments := 0 }

def c9fetchR : String → List RPost := fun _ => [c9rpost]

/-- The enriched hit `detectPainPoints` produces for `c9post`. -/
def c9hit : PainHit :=
  { post := c9post
  , signals := ALL_PAIN_SIGNALS.filter (fun s => containsSub s (lowerL (postText c9post)))
  , categories :=
      PAIN_SIGNALS.filterMap (fun cs =>
        let matched := cs.2.filter (fun s => containsSub s (lowerL (postText c9post)))
        if matched.isEmpty then none else some (cs.1, matched))
  , sentiment := some (analyzeSentiment (postText c9post)) }

-- ============ helper lemmas ============

theorem analyzeSentiment_label (t : List Char) :
    (analyzeSentiment t).label =
      (if (1 : ℚ) / 5 ≤ rawCompound t then Label.positive
       else if rawCompound t ≤ -((1 : ℚ) / 5) then Label.negative
       else Label.neutral) := rfl

theorem analyzeSentiment_compound (t : List Char) :
    (analyzeSentiment t).compound = ((jsRound (rawCompound t * 100) : ℤ) : ℚ) / 100 := rfl

theorem analyzeSentiment_positive (t : List Char) :
    (analyzeSentiment t).positive = (sentScores t).1 := rfl

theorem analyzeSentiment_negative (t : List Char) :
    (analyzeSentiment t).negative = (sentScores t).2 := rfl

theorem rawCompound_def (t : List Char) :
    rawCompound t =
      (if 0 < (sentScores t).1 + (sentScores t).2 then
        (((sentScores t).1 - (sentScores t).2 : ℤ) : ℚ) /
          (((sentScores t).1 + (sentScores t).2 : ℤ) : ℚ)
       else 0) := rfl

theorem notifyAnalyzeSentiment_label (t : List Char) :
    (notifyAnalyzeSentiment t).label =
      (if (1 : ℚ) / 5 ≤ notifyRawCompound t then Label.positive
       else if notifyRawCompound t ≤ -((1 : ℚ) / 5) then Label.negative
       else Label.neutral) := rfl

theorem notifyRawCompound_def (t : List Char) :
    notifyRawCompound t =
      (if 0 < (notifyScores t).1 + (notifyScores t).2 then
        (((notifyScores t).1 - (notifyScores t).2 : ℤ) : ℚ) /
          (((notifyScores t).1 + (notifyScores t).2 : ℤ) : ℚ)
       else 0) := rfl

theorem negFlipDelta_sum_zero (a b : List Char) :
    (negFlipDelta a b).1 + (negFlipDelta a b).2 = 0 := by
  unfold negFlipDelta
  split_ifs <;> simp

theorem sum_fst_add_sum_snd_eq_zero (l : List (ℤ × ℤ))
    (h : ∀ x ∈ l, x.1 + x.2 = 0) :
    (l.map Prod.fst).sum + (l.map Prod.snd).sum = 0 := by
  induction l with
  | nil => simp
  | cons x xs ih =>
    have hx := h x (by simp)
    have hxs := ih (fun y hy => h y (by simp [hy]))
    simp only [List.map_cons, List.sum_cons]
    omega

/-- The negation pass preserves `positiveScore + negativeScore`, so the
total is the (nonnegative) number of word-boundary lexicon hits. -/
theorem sentScores_total_nonneg (t : List Char) :
    0 ≤ (sentScores t).1 + (sentScores t).2 := by
  unfold sentScores
  have h := sum_fst_add_sum_snd_eq_zero
    (((splitWs (lowerL t)).zip (splitWs (lowerL t)).tail).map
      (fun ab => negFlipDelta ab.1 ab.2))
    (by
      intro x hx
      simp only [List.mem_map] at hx
      obtain ⟨ab, _, rfl⟩ := hx
      exact negFlipDelta_sum_zero ab.1 ab.2)
  simp only [List.map_map] at h ⊢
  have hp : (0 : ℤ) ≤ (posHits1 (lowerL t) : ℤ) := Int.ofNat_nonneg _
  have hn : (0 : ℤ) ≤ (negHits1 (lowerL t) : ℤ) := Int.ofNat_nonneg _
  omega

theorem updateFirst_of_no_match {α : Type} (pred : α → Bool) (f : α → α)
    (l : List α) (h : ∀ x ∈ l, pred x = false) :
    updateFirst pred f l = (none, l) := by
  induction l with
  | nil => rfl
  | cons x xs ih =>
    have hx := h x (by simp)
    simp only [updateFirst, hx, Bool.false_eq_true, if_false]
    rw [ih (fun y hy => h y (by simp [hy]))]

theorem updateFirst_some {α : Type} (pred : α → Bool) (f : α → α)
    (l : List α) (r : α) (h : (updateFirst pred f l).1 = some r) :
    ∃ x ∈ l, pred x = true ∧ r = f x := by
  induction l with
  | nil => simp [updateFirst] at h
  | cons x xs ih =>
    by_cases hx : pred x = true
    · refine ⟨x, by simp, hx, ?_⟩
      simp only [updateFirst, hx, if_true] at h
      exact (Option.some_injective _ h).symm
    · simp only [updateFirst, hx, if_false] at h
      obtain ⟨y, hy, hpy, hr⟩ := ih h
      exact ⟨y, by simp [hy], hpy, hr⟩

-- ============ claim C5 ============

/-- Claim C5, counterexample: on the text `best bad terrible` the scorer
returns positiveHits 1, negativeHits 2, but its returned compound is the
two-decimal rounding -33/100 of -1/3, not the exact ratio
(positiveHits - negativeHits) / (positiveHits + negativeHits) the claim
states. -/
theorem c5_counterexample :
    (analyzeSentiment ("best bad terrible".toList)).positive = 1 ∧
    (analyzeSentiment ("best bad terrible".toList)).negative = 2 ∧
    (analyzeSentiment ("best bad terrible".toList)).positive +
      (analyzeSentiment ("best bad terrible".toList)).negative ≠ 0 ∧
    (analyzeSentiment ("best bad terrible".toList)).compound ≠
      (((analyzeSentiment ("best bad terrible".toList)).positive -
          (analyzeSentiment ("best bad terrible".toList)).negative : ℤ) : ℚ) /
        (((analyzeSentiment ("best bad terrible".toList)).positive +
          (analyzeSentiment ("best bad terrible".toList)).negative : ℤ) : ℚ) := by
  have hs : sentScores ("best bad terrible".toList) = (1, 2) := by decide
  have hraw : rawCompound ("best bad terrible".toList) = -1 / 3 := by
    rw [rawCompound_def, hs]
    norm_num
  refine ⟨?_, ?_, ?_, ?_⟩
  · rw [analyzeSentiment_positive, hs]
  · rw [analyzeSentiment_negative, hs]
  · rw [analyzeSentiment_positive, analyzeSentiment_negative, hs]
    decide
  · rw [analyzeSentiment_compound, analyzeSentiment_positive,
      analyzeSentiment_negative, hraw, hs]
    simp only [jsRound]
    norm_num

/-- Claim C5, amended: the returned compound equals the exact ratio
(positiveHits - negativeHits) / (positiveHits + negativeHits) (or 0 when
the total is zero) rounded to two decimals in JS fashion
(`Math.round(c * 100) / 100`, i.e. floor(100c + 1/2) / 100), and the empty
string yields exactly `{label: neutral, compound: 0, positiveHits: 0,
negativeHits: 0}`. -/
theorem c5_amended (t : List Char) :
    (analyzeSentiment t).compound = ((jsRound (rawCompound t * 100) : ℤ) : ℚ) / 100 ∧
    ((sentScores t).1 + (sentScores t).2 ≠ 0 →
      rawCompound t = (((sentScores t).1 - (sentScores t).2 : ℤ) : ℚ) /
        (((sentScores t).1 + (sentScores t).2 : ℤ) : ℚ)) ∧
    ((sentScores t).1 + (sentScores t).2 = 0 → rawCompound t = 0) ∧
    analyzeSentiment ("".toList) =
      { label := Label.neutral, compound := 0, positive := 0, negative := 0 } := by
  refine ⟨analyzeSentiment_compound t, ?_, ?_, ?_⟩
  · intro h
    have hnn := sentScores_total_nonneg t
    have hpos : 0 < (sentScores t).1 + (sentScores t).2 := lt_of_le_of_ne hnn (Ne.symm h)
    rw [rawCompound_def, if_pos hpos]
  · intro h
    rw [rawCompound_def, h]
    norm_num
  · have hs : sentScores ("".toList) = (0, 0) := by decide
    have hraw : rawCompound ("".toList) = 0 := by
      rw [rawCompound_def, hs]
      norm_num
    have hl : (analyzeSentiment ("".toList)).label = Label.neutral := by
      rw [analyzeSentiment_label, hraw]
      rw [if_neg (by norm_num), if_neg (by norm_num)]
    have hc : (analyzeSentiment ("".toList)).compound = 0 := by
      rw [analyzeSentiment_compound, hraw]
      simp only [jsRound]
      norm_num
    have hp : (analyzeSentiment ("".toList)).positive = 0 := by
      rw [analyzeSentiment_positive, hs]
    have hn : (analyzeSentiment ("".toList)).negative = 0 := by
      rw [analyzeSentiment_negative, hs]
    exact Sentiment.ext hl hc hp hn

/-- Witness for c5_amended at the one-word text `best`. -/
theorem c5_amended_witness :
    rawCompound ("best".toList) =
      (((sentScores ("best".toList)).1 - (sentScores ("best".toList)).2 : ℤ) : ℚ) /
        (((sentScores ("best".toList)).1 + (sentScores ("best".toList)).2 : ℤ) : ℚ) :=
  (c5_amended ("best".toList)).2.1 (by decide)

-- ============ claim C7 ============

/-- Claim C7: evaluation of the scorer at the failing input
`terrible awful not xlove`.  The negation pass decrements positiveScore for
the stem `love` inside `xlove` although no word-boundary hit was ever
counted for it, so the returned record has positiveHits = -1 and compound
= -2, outside [-1, 1] — contradicting the claim (and scout.js's own
comment `Calculate compound score (-1 to 1)`). -/
theorem c7_bug_eval :
    (analyzeSentiment ("terrible awful not xlove".toList)).positive = -1 ∧
    (analyzeSentiment ("terrible awful not xlove".toList)).compound = -2 ∧
    (analyzeSentiment ("terrible awful not xlove".toList)).compound < -1 := by
  have hs : sentScores ("terrible awful not xlove".toList) = (-1, 3) := by decide
  have hraw : rawCompound ("terrible awful not xlove".toList) = -2 := by
    rw [rawCompound_def, hs]
    norm_num
  refine ⟨?_, ?_, ?_⟩
  · rw [analyzeSentiment_positive, hs]
  · rw [analyzeSentiment_compound, hraw]
    simp only [jsRound]
    norm_num
  · rw [analyzeSentiment_compound, hraw]
    simp only [jsRound]
    norm_num

-- ============ claim C4 ============

set_option maxRecDepth 100000 in
/-- Claim C4, counterexample: on 49 `best` and 33 `bad` the pre-rounding
compound is 8/41 < 0.2, so the label is neutral, yet the returned compound
rounds to exactly 0.2 — the returned record violates
`label = positive iff compound >= 0.2`. -/
theorem c4_counterexample :
    (analyzeSentiment c4text).compound = 1 / 5 ∧
    (analyzeSentiment c4text).label ≠ Label.positive := by
  have hs : sentScores c4text = (49, 33) := by decide
  have hraw : rawCompound c4text = 8 / 41 := by
    rw [rawCompound_def, hs]
    norm_num
  constructor
  · rw [analyzeSentiment_compound, hraw]
    simp only [jsRound]
    norm_num
  · rw [analyzeSentiment_label, hraw]
    rw [if_neg (by norm_num), if_neg (by norm_num)]
    decide

/-- Claim C4, amended: the label is determined by the PRE-rounding compound
(positive iff it is ≥ 0.2, negative iff ≤ -0.2); for the returned, rounded
compound only the forward implications hold (positive → returned ≥ 0.2,
negative → returned ≤ -0.2), rounding being able to move a neutral
compound onto the boundary ±0.2. -/
theorem c4_amended (t : List Char) :
    ((analyzeSentiment t).label = Label.positive ↔ (1 : ℚ) / 5 ≤ rawCompound t) ∧
    ((analyzeSentiment t).label = Label.negative ↔ rawCompound t ≤ -((1 : ℚ) / 5)) ∧
    ((analyzeSentiment t).label = Label.positive →
      (1 : ℚ) / 5 ≤ (analyzeSentiment t).compound) ∧
    ((analyzeSentiment t).label = Label.negative →
      (analyzeSentiment t).compound ≤ -((1 : ℚ) / 5)) := by
  rw [analyzeSentiment_label, analyzeSentiment_compound]
  by_cases h1 : (1 : ℚ) / 5 ≤ rawCompound t
  · rw [if_pos h1]
    have hno : ¬ rawCompound t ≤ -((1 : ℚ) / 5) := by linarith
    have h20 : (20 : ℤ) ≤ jsRound (rawCompound t * 100) := by
      simp only [jsRound]
      rw [Int.le_floor]
      push_cast
      linarith
    have hcb : (1 : ℚ) / 5 ≤ ((jsRound (rawCompound t * 100) : ℤ) : ℚ) / 100 := by
      have h20q : (20 : ℚ) ≤ ((jsRound (rawCompound t * 100) : ℤ) : ℚ) := by
        exact_mod_cast h20
      linarith
    exact ⟨⟨fun _ => h1, fun _ => rfl⟩,
      ⟨fun hx => Label.noConfusion hx, fun hle => absurd hle hno⟩,
      fun _ => hcb, fun hx => Label.noConfusion hx⟩
  · rw [if_neg h1]
    by_cases h2 : rawCompound t ≤ -((1 : ℚ) / 5)
    · rw [if_pos h2]
      have h20 : jsRound (rawCompound t * 100) ≤ -20 := by
        simp only [jsRound]
        have hle : rawCompound t * 100 + 1 / 2 ≤ ((-20 : ℤ) : ℚ) + 1 / 2 := by
          push_cast
          linarith
        calc Int.floor (rawCompound t * 100 + 1 / 2) ≤
            Int.floor (((-20 : ℤ) : ℚ) + 1 / 2) := Int.floor_le_floor hle
          _ = -20 := by
            rw [show ((-20 : ℤ) : ℚ) + 1 / 2 = -39 / 2 by norm_num]
            norm_num
      have hcb : ((jsRound (rawCompound t * 100) : ℤ) : ℚ) / 100 ≤ -((1 : ℚ) / 5) := by
        have h20q : ((jsRound (rawCompound t * 100) : ℤ) : ℚ) ≤ (-20 : ℚ) := by
          exact_mod_cast h20
        linarith
      exact ⟨⟨fun hx => Label.noConfusion hx, fun hle => absurd hle h1⟩,
        ⟨fun _ => h2, fun _ => rfl⟩,
        fun hx => Label.noConfusion hx, fun _ => hcb⟩
    · rw [if_neg h2]
      exact ⟨⟨fun hx => Label.noConfusion hx, fun hle => absurd hle h1⟩,
        ⟨fun hx => Label.noConfusion hx, fun hle => absurd hle h2⟩,
        fun hx => Label.noConfusion hx, fun hx => Label.noConfusion hx⟩

theorem c4wlabel : (analyzeSentiment ("best".toList)).label = Label.positive := by
  have hs : sentScores ("best".toList) = (1, 0) := by decide
  have hraw : rawCompound ("best".toList) = 1 := by
    rw [rawCompound_def, hs]
    norm_num
  rw [analyzeSentiment_label, hraw, if_pos (by norm_num)]

/-- Witness for c4_amended at the one-word text `best`. -/
theorem c4_amended_witness :
    (1 : ℚ) / 5 ≤ (analyzeSentiment ("best".toList)).compound :=
  (c4_amended ("best".toList)).2.2.1 c4wlabel

-- ============ claim C6 ============

/-- Claim C6, counterexample: the scorer registers a positive hit on the
text `lovely` (the lexicon word `love` matched as a boundary-anchored
prefix), although no positive lexicon word occurs in `lovely` as a
whole-word-boundary match. -/
theorem c6_counterexample :
    (analyzeSentiment ("lovely".toList)).positive = 1 ∧
    (POSITIVE_WORDS.map (fun w => specWholeWordCount w (lowerL ("lovely".toList)))).sum
      = 0 := by
  constructor
  · rw [analyzeSentiment_positive, show sentScores ("lovely".toList) = (1, 0) from by decide]
  · decide

/-- Claim C6, amended: a lexicon hit requires a word boundary only at the
START of the lexicon word (stem/prefix matching, not arbitrary substring
and not whole-word), and a word repeated k times counts k times: the
scanner counts exactly k hits of `best` on k space-separated repetitions,
`lovely` yields a positive hit, while `xlove` (no boundary before `love`)
yields none. -/
theorem c6_amended :
    (∀ k : ℕ, countScan ("best".toList) (repBest k) = k) ∧
    (analyzeSentiment ("best best best".toList)).positive = 3 ∧
    (analyzeSentiment ("lovely".toList)).positive = 1 ∧
    (analyzeSentiment ("xlove".toList)).positive = 0 := by
  refine ⟨?_, ?_, ?_, ?_⟩
  · intro k
    induction k with
    | zero => rfl
    | succ k ih =>
      have hstep : countScan ("best".toList) (repBest (k + 1)) =
          1 + countScan ("best".toList) (repBest k) := rfl
      rw [hstep, ih]
      omega
  · rw [analyzeSentiment_positive,
      show sentScores ("best best best".toList) = (3, 0) from by decide]
  · rw [analyzeSentiment_positive, show sentScores ("lovely".toList) = (1, 0) from by decide]
  · rw [analyzeSentiment_positive, show sentScores ("xlove".toList) = (0, 0) from by decide]

-- ============ claim C8 ============

theorem mem_dedupFirst {α : Type} [DecidableEq α] (s : List α) (k : α) :
    k ∈ dedupFirst s ↔ k ∈ s := by
  induction s with
  | nil => simp [dedupFirst]
  | cons a s ih =>
    by_cases hk : k = a
    · subst hk
      simp [dedupFirst]
    · simp [dedupFirst, List.mem_filter, hk, ih]

theorem categories_flatten_eq (cats : List (String × List (List Char)))
    (pr : List Char → Bool) :
    ((cats.filterMap (fun cs =>
        let matched := cs.2.filter pr
        if matched.isEmpty then none else some (cs.1, matched))).map Prod.snd).flatten =
      (cats.map (fun cs => cs.2.filter pr)).flatten := by
  induction cats with
  | nil => rfl
  | cons c cats ih =>
    by_cases hc : (c.2.filter pr).isEmpty = true
    · have hnil : c.2.filter pr = [] := by simpa using hc
      simp only [List.filterMap_cons, hc, if_true, List.map_cons, List.flatten_cons, hnil,
        List.nil_append]
      exact ih
    · simp only [List.filterMap_cons, hc, if_false, List.map_cons, List.flatten_cons,
        Bool.false_eq_true]
      rw [ih]

/-- Claim C8: the categorizer keeps a post iff its lowercased title+body
contains at least one catalog phrase as a substring; an enriched hit
carries exactly the categories with a nonempty matched-phrase subset (each
mapped to its matched phrases), and its signal list is the union of the
matched phrases across categories. -/
theorem c8_categorize (posts : List Post) (b : Bool) (p : Post) :
    (detectPainPoints [p] b = [] ↔
      ∀ s ∈ ALL_PAIN_SIGNALS, containsSub s (lowerL (postText p)) = false) ∧
    (∀ h ∈ detectPainPoints posts b,
      h.post ∈ posts ∧
      h.signals = ALL_PAIN_SIGNALS.filter (fun s => containsSub s (lowerL (postText h.post))) ∧
      h.signals ≠ [] ∧
      (∀ (c : String) (ms : List (List Char)),
        (c, ms) ∈ h.categories ↔
          ∃ sigs, (c, sigs) ∈ PAIN_SIGNALS ∧
            ms = sigs.filter (fun s => containsSub s (lowerL (postText h.post))) ∧
            ms ≠ []) ∧
      h.signals = (h.categories.map Prod.snd).flatten) := by
  constructor
  · by_cases hp : ALL_PAIN_SIGNALS.any (fun s => containsSub s (lowerL (postText p))) = true
    · apply iff_of_false
      · simp [detectPainPoints, List.filter_cons, hp]
      · simp only [List.any_eq_true] at hp
        obtain ⟨s, hs, hsub⟩ := hp
        intro hall
        exact absurd (hall s hs) (by simp [hsub])
    · apply iff_of_true
      · simp [detectPainPoints, List.filter_cons, hp]
      · simp only [List.any_eq_true] at hp
        push_neg at hp
        intro s hs
        simpa using hp s hs
  · intro h hh
    simp only [detectPainPoints, List.mem_map, List.mem_filter] at hh
    obtain ⟨q, ⟨hq, hqpred⟩, rfl⟩ := hh
    refine ⟨hq, rfl, ?_, ?_, ?_⟩
    · intro hnil
      rw [List.filter_eq_nil_iff] at hnil
      simp only [List.any_eq_true] at hqpred
      obtain ⟨s, hs, hsub⟩ := hqpred
      exact absurd hsub (by simpa using hnil s hs)
    · intro c ms
      constructor
      · intro hmem
        simp only [List.mem_filterMap] at hmem
        obtain ⟨cs, hcs, hF⟩ := hmem
        by_cases he : (cs.2.filter (fun s => containsSub s (lowerL (postText q)))).isEmpty = true
        · simp [he] at hF
        · simp only [he, if_false, Option.some_inj, Bool.false_eq_true] at hF
          rw [Prod.mk.injEq] at hF
          refine ⟨cs.2, ?_, ?_, ?_⟩
          · rw [show (c, cs.2) = cs from by rw [← hF.1]]
            exact hcs
          · exact hF.2.symm
          · rw [← hF.2]
            simpa using he
      · intro ⟨sigs, hsigs, hms, hne⟩
        simp only [List.mem_filterMap]
        refine ⟨(c, sigs), hsigs, ?_⟩
        have he : (sigs.filter (fun s => containsSub s (lowerL (postText q)))).isEmpty = false := by
          rw [← hms]
          simpa using hne
        simp only [he, if_false, Bool.false_eq_true]
        rw [hms]
    · rw [categories_flatten_eq]
      rw [ALL_PAIN_SIGNALS, List.filter_flatten, List.map_map]
      rfl

/-- Witness for c8_categorize: a post mentioning no catalog phrase is
excluded, via the right-to-left direction at a concrete post. -/
theorem c8_categorize_witness :
    detectPainPoints [c8noSignalPost] true = [] :=
  (c8_categorize [] true c8noSignalPost).1.mpr (by decide)

-- ============ claim C2 ============

/-- Claim C2: the dedup store. `markSeen` then `hasSeen` is true within the
run; a freshly inserted key survives a flush unconditionally (it is among
the most recently added 1000); reloading (`new Set` of the saved list)
preserves membership; `markSeen` of a present key does not reorder; and
after 1001 distinct insertions the flush drops exactly the oldest key,
keeping the newest 1000 in insertion order. -/
theorem c2_dedup_store {α : Type} [DecidableEq α] :
    (∀ (s : List α) (k : α), hasSeen (markSeen s k) k = true) ∧
    (∀ (s : List α) (k : α), k ∉ s → hasSeen (flushSeen (markSeen s k)) k = true) ∧
    (∀ (s : List α) (k : α), k ∈ s → markSeen s k = s) ∧
    (∀ (s : List α) (k : α), hasSeen (dedupFirst s) k = hasSeen s k) ∧
    (∀ (a : α) (t : List α), (a :: t).Nodup → t.length = 1000 →
      flushSeen (a :: t) = t ∧ hasSeen (flushSeen (a :: t)) a = false ∧
      ∀ k ∈ t, hasSeen (flushSeen (a :: t)) k = true) := by
  refine ⟨?_, ?_, ?_, ?_, ?_⟩
  · intro s k
    by_cases h : k ∈ s
    · simp [markSeen, hasSeen, h]
    · simp [markSeen, hasSeen, h]
  · intro s k h
    rw [markSeen, if_neg h, flushSeen]
    have hn : (s ++ [k]).length - 1000 ≤ s.length := by
      simp only [List.length_append, List.length_singleton]
      omega
    rw [List.drop_append_of_le_length hn]
    simp [hasSeen]
  · intro s k h
    rw [markSeen, if_pos h]
  · intro s k
    simp [hasSeen, mem_dedupFirst]
  · intro a t hnodup hlen
    have hflush : flushSeen (a :: t) = t := by
      rw [flushSeen]
      simp only [List.length_cons, hlen]
      rfl
    refine ⟨hflush, ?_, ?_⟩
    · rw [hflush]
      have := (List.nodup_cons.mp hnodup).1
      simpa [hasSeen] using this
    · intro k hk
      rw [hflush]
      simpa [hasSeen] using hk

/-- Witness for c2_dedup_store at 1001 distinct natural-number keys: the
first key 1000 is evicted by the flush and the remaining 1000 keys stay. -/
theorem c2_dedup_store_witness :
    flushSeen ((1000 : ℕ) :: List.range 1000) = List.range 1000 ∧
    hasSeen (flushSeen ((1000 : ℕ) :: List.range 1000)) 1000 = false ∧
    hasSeen (flushSeen ((1000 : ℕ) :: List.range 1000)) 0 = true := by
  have h := (c2_dedup_store (α := ℕ)).2.2.2.2 1000 (List.range 1000)
    (by simp [List.nodup_cons, List.nodup_range, List.mem_range])
    (by simp)
  exact ⟨h.1, h.2.1, h.2.2 0 (by simp [List.mem_range])⟩

-- ============ claim C10 ============

/-- Claim C10: when no stored record has the given id, cancelPost,
markPosted and toggleAlert each return null and leave the stored
collections exactly unchanged. -/
theorem c10_unknown_id :
    (∀ (posts : List SchedPost) (id : String) (now : ℤ),
      (∀ q ∈ posts, q.id ≠ id) → cancelPost posts id now = (none, posts)) ∧
    (∀ (posts history : List SchedPost) (id : String) (url : Option String) (now : ℤ),
      (∀ q ∈ posts, q.id ≠ id) →
        markPosted posts history id url now = (none, posts, history)) ∧
    (∀ (alerts : List Alert) (id : String) (b : Bool),
      (∀ a ∈ alerts, a.id ≠ id) → toggleAlert alerts id b = (none, alerts)) := by
  refine ⟨?_, ?_, ?_⟩
  · intro posts id now h
    rw [cancelPost, updateFirst_of_no_match _ _ _
      (fun q hq => beq_eq_false_iff_ne.mpr (h q hq))]
  · intro posts history id url now h
    rw [markPosted, updateFirst_of_no_match _ _ _
      (fun q hq => beq_eq_false_iff_ne.mpr (h q hq))]
  · intro alerts id b h
    rw [toggleAlert, updateFirst_of_no_match _ _ _
      (fun a ha => beq_eq_false_iff_ne.mpr (h a ha))]

/-- Witness for c10_unknown_id at a singleton store and a missing id. -/
theorem c10_unknown_id_witness :
    cancelPost [c3posted] "zz" 0 = (none, [c3posted]) :=
  c10_unknown_id.1 [c3posted] "zz" 0 (by decide)

-- ============ claim C3 ============

/-- Claim C3, counterexample: cancelPost has no status guard — applied to a
post whose status is already `posted` it rewrites it to `cancelled`, so a
posted post IS modified by a subsequent operation, against the claimed
state machine. -/
theorem c3_counterexample :
    c3posted.status = PStatus.posted ∧
    ((cancelPost [c3posted] "p1" 7).2.map SchedPost.status) = [PStatus.cancelled] ∧
    (cancelPost [c3posted] "p1" 7).2 ≠ [c3posted] := by
  decide

/-- Claim C3, amended: cancelPost sets the first matching post to
`cancelled` with a `cancelledAt` stamp and markPosted sets it to `posted`
with a `postedAt` stamp REGARDLESS of its current status (so
posted → cancelled and cancelled → posted overwrites are possible); every
post returned by getDuePosts is pending with its scheduled time passed —
hence a cancelled post never appears there — and addScheduledPost only
appends a fresh pending post, modifying no existing record. -/
theorem c3_amended :
    (∀ (posts : List SchedPost) (id : String) (now : ℤ) (r : SchedPost),
      (cancelPost posts id now).1 = some r →
        r.status = PStatus.cancelled ∧ r.cancelledAt = some now) ∧
    (∀ (posts history : List SchedPost) (id : String) (url : Option String)
      (now : ℤ) (r : SchedPost),
      (markPosted posts history id url now).1 = some r →
        r.status = PStatus.posted ∧ r.postedAt = some now) ∧
    (∀ (posts : List SchedPost) (now : ℤ) (q : SchedPost),
      q ∈ getDuePosts posts now →
        q.status = PStatus.pending ∧ q.scheduledTime ≤ now) ∧
    (∀ (posts : List SchedPost) (sub ti co : String) (st : ℤ) (newId : String)
      (now : ℤ) (fl : Option String) (ns sp : Bool),
      (addScheduledPost posts sub ti co st newId now fl ns sp).2 =
        posts ++ [(addScheduledPost posts sub ti co st newId now fl ns sp).1] ∧
      (addScheduledPost posts sub ti co st newId now fl ns sp).1.status =
        PStatus.pending) := by
  refine ⟨?_, ?_, ?_, ?_⟩
  · intro posts id now r h
    rw [cancelPost] at h
    obtain ⟨x, _, _, rfl⟩ := updateFirst_some _ _ _ _ h
    exact ⟨rfl, rfl⟩
  · intro posts history id url now r h
    simp only [markPosted] at h
    split at h
    · simp at h
    · rename_i p heq
      simp only [Option.some_inj] at h
      subst h
      obtain ⟨x, _, _, rfl⟩ := updateFirst_some _ _ _ _ heq
      exact ⟨rfl, rfl⟩
  · intro posts now q hq
    simp only [getDuePosts, List.mem_filter, Bool.and_eq_true, beq_iff_eq,
      decide_eq_true_eq] at hq
    exact ⟨hq.2.1, hq.2.2⟩
  · intro posts sub ti co st newId now fl ns sp
    exact ⟨rfl, rfl⟩

/-- Witness for c3_amended: the conjunct on getDuePosts at a concrete due
pending post. -/
theorem c3_amended_witness :
    c3pending.status = PStatus.pending ∧ c3pending.scheduledTime ≤ 10 :=
  c3_amended.2.2.1 [c3pending] 10 c3pending (by decide)

-- ============ claim C9 ============

/-- Claim C9, counterexample: notify.js `generateDigest` counts the
sentiment distribution over ALL in-window posts — here a post (`love
stuff`) that matches no pain-point signal is counted as positive, so the
distribution is (1,0,0), not the (0,0,0) a pain-matched-only computation
would give. -/
theorem c9_counterexample :
    notifyDigestSentiment c9fetchR ["s"] 0 = (1, 0, 0) ∧
    (ALL_PAIN_SIGNALS.any
      (fun s => containsSub s (lowerL (c9rpost.title ++ ' ' :: c9rpost.selftext)))) = false := by
  have hn : notifyScores (c9rpost.title ++ ' ' :: c9rpost.selftext) = (1, 0) := by decide
  have hraw : notifyRawCompound (c9rpost.title ++ ' ' :: c9rpost.selftext) = 1 := by
    rw [notifyRawCompound_def, hn]
    norm_num
  have hlabel : (notifyAnalyzeSentiment (c9rpost.title ++ ' ' :: c9rpost.selftext)).label
      = Label.positive := by
    rw [notifyAnalyzeSentiment_label, hraw, if_pos (by norm_num)]
  constructor
  · simp only [notifyDigestSentiment, notifyDigestPosts, c9fetchR, List.map_cons,
      List.map_nil, List.flatten]
    rw [show (c9rpost :: []).filter (fun p => inWindow 0 p.createdUtc) = [c9rpost] from by decide]
    simp [List.filter, hlabel]
    exact ⟨rfl, rfl⟩
  · decide

/-- Claim C9, amended: scout.js's daily digest indeed computes its
sentiment overview only over pain-point-matched posts — every item it
counts carries a nonempty matched-signal list — but notify.js's
generateDigest computes its sentiment distribution over every in-window
post of every subreddit, with no pain-point filtering at all. -/
theorem c9_amended (fetchP : String → List Post) (fetchR : String → List RPost)
    (subs : List String) (cutoff : ℤ) :
    (∀ h ∈ scoutDigestPainPoints fetchP subs cutoff, h.signals ≠ []) ∧
    (notifyDigestPosts fetchR subs cutoff).length =
      (subs.map
        (fun sub => ((fetchR sub).filter (fun p => inWindow cutoff p.createdUtc)).length)).sum := by
  constructor
  · intro h hh
    simp only [scoutDigestPainPoints, List.mem_flatten, List.mem_map] at hh
    obtain ⟨l, ⟨sub, hsub, rfl⟩, hhl⟩ := hh
    simp only [detectPainPoints, List.mem_map, List.mem_filter] at hhl
    obtain ⟨q, ⟨hq, hqpred⟩, rfl⟩ := hhl
    intro hnil
    rw [List.filter_eq_nil_iff] at hnil
    simp only [List.any_eq_true] at hqpred
    obtain ⟨s, hs, hsub2⟩ := hqpred
    exact absurd hsub2 (by simpa using hnil s hs)
  · simp [notifyDigestPosts, List.length_flatten, List.map_map, Function.comp_def]

/-- Witness for c9_amended: the pain-matched hit of the post
`frustrated with my crm` has a nonempty signal list. -/
theorem c9_amended_witness : c9hit.signals ≠ [] :=
  (c9_amended c9fetchP c9fetchR ["s"] 0).1 c9hit
    (by
      rw [show scoutDigestPainPoints c9fetchP ["s"] 0 = [c9hit] from rfl]
      exact List.mem_singleton.mpr rfl)

-- ============ claim C1 ============

/--
Claim C1: evaluation at the failing input.  One enabled alert (keywords
`help`, subreddit `s`, matchCount 0) and one fetched post titled
`need help`:
scheduler.js checkAlerts emits the match and sets matchCount to 1, and a
SECOND run over the same fetched data emits the same match again (1, not
the claimed 0 new matches) and inflates matchCount to 2 — it consults no
seen set (its `matchKey` is dead code).  notify.js checkAlerts, by
contrast, emits the match once, inserts the id into the seen set, and a
second run over the persisted seen set emits zero matches — but it never
touches lastChecked or matchCount.
-/
theorem c1_checkalerts_bug_eval :
    (schedCheckAlerts [c1alert] c1fetch 1).2.length = 1 ∧
    ((schedCheckAlerts [c1alert] c1fetch 1).1.map Alert.matchCount) = [1] ∧
    (schedCheckAlerts (schedCheckAlerts [c1alert] c1fetch 1).1 c1fetch 2).2.length = 1 ∧
    ((schedCheckAlerts (schedCheckAlerts [c1alert] c1fetch 1).1 c1fetch 2).1.map
      Alert.matchCount) = [2] ∧
    (notifyCheckAlerts [c1alert] [] c1fetch).1.length = 1 ∧
    (notifyCheckAlerts [c1alert]
      (flushSeen (notifyCheckAlerts [c1alert] [] c1fetch).2) c1fetch).1.length = 0 := by
  decide

end RedditScout
